import Mathlib

/-!
Shallow embedding of the aerodrome booking engine of this repository
(`business.py`, `api/main.py`, `api/models.py`, `CRUD.py`).

Timestamps: the code stores ISO-8601 naive datetimes as strings and always
runs `datetime.fromisoformat` on them before comparing or subtracting.  We
model a timestamp as a rational number of minutes on the global time axis;
this is an order- and difference-preserving abstraction of naive datetimes
(`timedelta(minutes=90)` becomes `+ 90` and `duration.total_seconds()`
becomes `* 60`).  Money is modeled as `ℚ`, idealizing Python `float`
arithmetic as exact rational arithmetic.

Storage (`CRUD.py`): `DatabaseManager` holds the table contents as lists in
rowid order.  `db.select(table, filters)` is modeled by `List.filter`; an SQL
comparison with a `NULL` parameter or a `NULL` column never matches, which
`filter_match_optInt` reflects.  `db.create` is modeled as an append that
assigns the fresh SQLite rowid `max existing id + 1`; the `IntegrityError` paths of the storage layer are not modeled, so claims about what creation
persists are read off the returned row.  `db.update` rewrites every row
matched by the `Id` filter.

Python truthiness: `if infrastructure_id:` in `business.py` is false both for
`None` and for `0`; `int_truthy` and `creneau_excluded` model this exactly.

Request bodies (`api/models.py`): `CreneauCreate` is modeled with every field
explicitly provided, so `model_dump(exclude_unset=True)` in `update_creneau`
contains all columns, as it does for any request that sends the full body.
-/

structure Infrastructure where
  Id : Int
  nom : String
  type : String
  capacite_max : Int
  prix_jour : ℚ
  prix_semaine : ℚ
  prix_mois : ℚ
  deriving DecidableEq

structure Avitaillement where
  Id : Int
  date : String
  heure : String
  quantite_en_l : ℚ
  cout : ℚ
  avion_id : String
  deriving DecidableEq

/-- Row of the `Creneaux` table (shape of the `Creneau` response model). -/
structure Creneau where
  Id : Int
  debut_prevu : ℚ
  fin_prevu : ℚ
  debut_reel : Option ℚ
  fin_reel : Option ℚ
  etat : String
  cout_total : Option ℚ
  avitaillement_id : Option Int
  pilote_id : Option Int
  infrastructure_id : Option Int
  facture_id : Option Int
  deriving DecidableEq

structure Avion where
  Immatriculation : String
  marque : String
  modele : String
  dimension : String
  poids : String
  carburant_id : Option String
  pilote_id : Option Int
  deriving DecidableEq

structure Facture where
  Id : Int
  rib : String
  date_d_emission : String
  agent_id : Option Int
  deriving DecidableEq

structure Messagerie where
  Id : Int
  date : String
  heure : String
  contenu : String
  sens_d_envoie : Int
  agent_id : Option Int
  pilote_id : Option Int
  deriving DecidableEq

/-- Table contents reachable through `CRUD.DatabaseManager`, restricted to the
tables the verified operations touch. -/
structure DatabaseManager where
  infrastructures : List Infrastructure
  avitaillements : List Avitaillement
  creneaux : List Creneau
  avions : List Avion
  factures : List Facture
  messageries : List Messagerie
  deriving DecidableEq

/-- Python truthiness of an optional integer: `if x:` is false for `None` and
for `0`. -/
def int_truthy : Option Int → Bool
  | none => false
  | some v => v != 0

/-- SQL equality used by `db.select(..., filters={col: v})` on a nullable
integer column: a `NULL` parameter or a `NULL` column never matches. -/
def filter_match_optInt (filterVal rowVal : Option Int) : Bool :=
  match filterVal, rowVal with
  | some v, some w => v == w
  | _, _ => false

/-- `business.calculate_creneau_cost`: infrastructure rental under the tiered
day/week/month rates plus the referenced refueling cost.  `if infra:` and
`if avitaillement:` (empty select results) silently contribute `0`. -/
def calculate_creneau_cost (db : DatabaseManager)
    (infrastructure_id avitaillement_id : Option Int)
    (debut_prevu fin_prevu : ℚ) : ℚ :=
  let infra_cost : ℚ :=
    match infrastructure_id with
    | none => 0
    | some i =>
      if i = 0 then 0
      else
        match db.infrastructures.filter (fun r => r.Id == i) with
        | [] => 0
        | infra :: _ =>
          let hours : ℚ := ((fin_prevu - debut_prevu) * 60) / 3600
          let days : ℚ := hours / 24
          if 30 ≤ days then (days / 30) * infra.prix_mois
          else if 7 ≤ days then (days / 7) * infra.prix_semaine
          else days * infra.prix_jour
  let avitaillement_cost : ℚ :=
    match avitaillement_id with
    | none => 0
    | some a =>
      if a = 0 then 0
      else
        match db.avitaillements.filter (fun r => r.Id == a) with
        | [] => 0
        | av :: _ => av.cout
  infra_cost + avitaillement_cost

/-- `if exclude_creneau_id and existing["Id"] == exclude_creneau_id: continue`
from `business.validate_creneau_time_slot`, with Python truthiness. -/
def creneau_excluded (exclude_creneau_id : Option Int) (rowId : Int) : Bool :=
  match exclude_creneau_id with
  | none => false
  | some e => e != 0 && rowId == e

/-- `business.validate_creneau_time_slot`: the 90-minute safety-interval rule.
The infrastructure id is annotated `int` in the source but receives the
nullable `creneau.infrastructure_id` from the API layer, hence `Option Int`.
The loop returning on the first conflict is `List.find?`. -/
def validate_creneau_time_slot (db : DatabaseManager)
    (infrastructure_id : Option Int) (debut_prevu fin_prevu : ℚ)
    (exclude_creneau_id : Option Int) : Bool × Option String :=
  if fin_prevu ≤ debut_prevu then
    (false, some "End time must be after start time")
  else
    match (db.creneaux.filter
        (fun r => filter_match_optInt infrastructure_id r.infrastructure_id)).find?
        (fun existing =>
          !(creneau_excluded exclude_creneau_id existing.Id)
          && decide (debut_prevu < existing.fin_prevu + 90)
          && decide (fin_prevu > existing.debut_prevu - 90)) with
    | some _ =>
      (false, some "Time slot conflicts with an existing one (including 90-minute security interval)")
    | none => (true, none)

/-- The `valid_transitions` dict of
`business.validate_creneau_state_transition`; `dict.get(current_state, [])`
is the final `else` branch. -/
def valid_transitions (current_state : String) : List String :=
  if current_state = "Demandé" then ["Confirmé", "Annulé"]
  else if current_state = "Confirmé" then ["Autorisé", "Annulé"]
  else if current_state = "Autorisé" then ["Achevé"]
  else if current_state = "Achevé" then []
  else if current_state = "Annulé" then []
  else []

/-- `business.validate_creneau_state_transition`. -/
def validate_creneau_state_transition (current_state new_state : String) :
    Bool × Option String :=
  if new_state = current_state then (true, none)
  else if new_state ∉ valid_transitions current_state then
    (false, some ("Invalid state transition from " ++ current_state ++ " to " ++ new_state))
  else (true, none)

/-- `business.check_user_owns_avion`. -/
def check_user_owns_avion (db : DatabaseManager) (pilote_id : Int)
    (immatriculation : String) : Bool :=
  match db.avions.filter (fun a => a.Immatriculation == immatriculation) with
  | [] => false
  | a :: _ => a.pilote_id == some pilote_id

/-- `business.check_user_owns_creneau`. -/
def check_user_owns_creneau (db : DatabaseManager) (pilote_id creneau_id : Int) : Bool :=
  match db.creneaux.filter (fun c => c.Id == creneau_id) with
  | [] => false
  | c :: _ => c.pilote_id == some pilote_id

/-- `business.check_user_access_to_facture`. -/
def check_user_access_to_facture (db : DatabaseManager) (pilote_id facture_id : Int) : Bool :=
  0 < (db.creneaux.filter
        (fun c => c.facture_id == some facture_id && c.pilote_id == some pilote_id)).length

/-- `business.check_user_access_to_message`. -/
def check_user_access_to_message (db : DatabaseManager) (user_id message_id : Int) : Bool :=
  match db.messageries.filter (fun m => m.Id == message_id) with
  | [] => false
  | m :: _ => some user_id == m.pilote_id || some user_id == m.agent_id

/-- Caller identity decoded from the JWT by `get_current_active_user`. -/
structure CurrentUser where
  id : Int
  type : String
  username : String
  deriving DecidableEq

/-- `fastapi.HTTPException`: status code and `detail`. -/
abbrev HTTPError := Nat × Option String

/-- Request body `api.models.CreneauCreate`. -/
structure CreneauCreate where
  debut_prevu : ℚ
  fin_prevu : ℚ
  debut_reel : Option ℚ
  fin_reel : Option ℚ
  etat : String
  cout_total : Option ℚ
  avitaillement_id : Option Int
  pilote_id : Option Int
  infrastructure_id : Option Int
  facture_id : Option Int
  deriving DecidableEq

/-- `GET /avions/{immatriculation}` (`api.main.get_avion`). -/
def get_avion (db : DatabaseManager) (immatriculation : String)
    (current_user : CurrentUser) : Except HTTPError Avion :=
  match db.avions.filter (fun a => a.Immatriculation == immatriculation) with
  | [] => .error (404, some "Avion not found")
  | a :: _ =>
    if !(current_user.type == "gestionnaire" || current_user.type == "agent")
        && !(check_user_owns_avion db current_user.id immatriculation) then
      .error (403, some "Not authorized to view this avion")
    else .ok a

/-- `GET /creneaux/{creneau_id}` (`api.main.get_creneau`). -/
def get_creneau (db : DatabaseManager) (creneau_id : Int)
    (current_user : CurrentUser) : Except HTTPError Creneau :=
  match db.creneaux.filter (fun c => c.Id == creneau_id) with
  | [] => .error (404, some "Creneau not found")
  | c :: _ =>
    if !(current_user.type == "gestionnaire" || current_user.type == "agent")
        && !(check_user_owns_creneau db current_user.id creneau_id) then
      .error (403, some "Not authorized to view this creneau")
    else .ok c

/-- `GET /factures/{facture_id}` (`api.main.get_facture`). -/
def get_facture (db : DatabaseManager) (facture_id : Int)
    (current_user : CurrentUser) : Except HTTPError Facture :=
  match db.factures.filter (fun fa => fa.Id == facture_id) with
  | [] => .error (404, some "Facture not found")
  | fa :: _ =>
    if !(current_user.type == "gestionnaire" || current_user.type == "agent") then
      if !(check_user_access_to_facture db current_user.id facture_id) then
        .error (403, some "Not authorized to view this facture")
      else .ok fa
    else .ok fa

/-- `GET /messageries/{message_id}` (`api.main.get_messagerie`). -/
def get_messagerie (db : DatabaseManager) (message_id : Int)
    (current_user : CurrentUser) : Except HTTPError Messagerie :=
  match db.messageries.filter (fun m => m.Id == message_id) with
  | [] => .error (404, some "Message not found")
  | m :: _ =>
    if !(current_user.type == "gestionnaire" || current_user.type == "agent")
        && !(check_user_access_to_message db current_user.id message_id) then
      .error (403, some "Not authorized to view this message")
    else .ok m

/-- SQLite rowid assigned by `db.create("Creneaux", ...)`: one more than the
largest existing rowid. -/
def creneaux_fresh_id (db : DatabaseManager) : Int :=
  (db.creneaux.foldr (fun r m => max r.Id m) 0) + 1

/-- The `creneau_data` dict that `api.main.create_creneau` inserts: the
request columns with `pilote_id`, `etat` and `cout_total` overwritten, under
the fresh rowid. -/
def mk_new_creneau (db : DatabaseManager) (current_user : CurrentUser)
    (creneau : CreneauCreate) : Creneau :=
  { Id := creneaux_fresh_id db
    debut_prevu := creneau.debut_prevu
    fin_prevu := creneau.fin_prevu
    debut_reel := creneau.debut_reel
    fin_reel := creneau.fin_reel
    etat := "Demandé"
    cout_total := some (calculate_creneau_cost db creneau.infrastructure_id
      creneau.avitaillement_id creneau.debut_prevu creneau.fin_prevu)
    avitaillement_id := creneau.avitaillement_id
    pilote_id := some current_user.id
    infrastructure_id := creneau.infrastructure_id
    facture_id := creneau.facture_id }

/-- `POST /creneaux/` (`api.main.create_creneau`): conflict validation, cost
computation, forced initial state `"Demandé"`, insertion, re-selection of the
inserted row by its new id. -/
def create_creneau (db : DatabaseManager) (current_user : CurrentUser)
    (creneau : CreneauCreate) : Except HTTPError (Creneau × DatabaseManager) :=
  match validate_creneau_time_slot db creneau.infrastructure_id
      creneau.debut_prevu creneau.fin_prevu none with
  | (false, error_msg) => .error (409, error_msg)
  | (true, _) =>
    match (db.creneaux ++ [mk_new_creneau db current_user creneau]).filter
        (fun r => r.Id == creneaux_fresh_id db) with
    | [] => .error (500, some "Failed to retrieve created creneau")
    | created :: _ =>
      .ok (created, { db with creneaux := db.creneaux ++ [mk_new_creneau db current_user creneau] })

/-- The row image written by `db.update("Creneaux", data=update_data, ...)` in
`api.main.update_creneau`: every request column plus the recomputed
`cout_total`; the primary key is untouched. -/
def apply_creneau_update (updated_data : CreneauCreate) (cout : ℚ) (r : Creneau) : Creneau :=
  { Id := r.Id
    debut_prevu := updated_data.debut_prevu
    fin_prevu := updated_data.fin_prevu
    debut_reel := updated_data.debut_reel
    fin_reel := updated_data.fin_reel
    etat := updated_data.etat
    cout_total := some cout
    avitaillement_id := updated_data.avitaillement_id
    pilote_id := updated_data.pilote_id
    infrastructure_id := updated_data.infrastructure_id
    facture_id := updated_data.facture_id }

/-- The `Creneaux` table after `db.update("Creneaux", data=update_data,
filters={"Id": creneau_id})` in `api.main.update_creneau`. -/
def updated_creneaux (db : DatabaseManager) (creneau_id : Int)
    (updated_data : CreneauCreate) : List Creneau :=
  db.creneaux.map fun r =>
    if r.Id == creneau_id then
      apply_creneau_update updated_data
        (calculate_creneau_cost db updated_data.infrastructure_id
          updated_data.avitaillement_id updated_data.debut_prevu updated_data.fin_prevu) r
    else r

/-- `PUT /creneaux/{creneau_id}` (`api.main.update_creneau`): existence check,
state-transition validation, cost recomputation, unconditional write of the
request columns, re-selection.  Note that it never calls
`validate_creneau_time_slot`. -/
def update_creneau (db : DatabaseManager) (creneau_id : Int)
    (updated_data : CreneauCreate) : Except HTTPError (Creneau × DatabaseManager) :=
  match db.creneaux.filter (fun r => r.Id == creneau_id) with
  | [] => .error (404, some "Creneau not found")
  | existing :: _ =>
    match validate_creneau_state_transition existing.etat updated_data.etat with
    | (false, error_msg) => .error (400, error_msg)
    | (true, _) =>
      match (updated_creneaux db creneau_id updated_data).filter
          (fun r => r.Id == creneau_id) with
      | [] => .error (404, some "Creneau not found")
      | updated :: _ =>
        .ok (updated, { db with creneaux := updated_creneaux db creneau_id updated_data })

/-- Two `Creneaux` rows reference the same infrastructure. -/
abbrev same_infrastructure (r1 r2 : Creneau) : Prop :=
  r1.infrastructure_id.isSome ∧ r1.infrastructure_id = r2.infrastructure_id

/-- Claim C2 reading of invariant 2: the two closed intervals
`[debut − 90, fin + 90]` are disjoint. -/
abbrev buffered_intervals_disjoint (r1 r2 : Creneau) : Prop :=
  r1.fin_prevu + 90 < r2.debut_prevu - 90 ∨ r2.fin_prevu + 90 < r1.debut_prevu - 90

/-- The invariant exactly as claim C2 states it, over a database state. -/
abbrev claim_buffered_invariant (db : DatabaseManager) : Prop :=
  ∀ r1 ∈ db.creneaux, ∀ r2 ∈ db.creneaux, r1.Id ≠ r2.Id →
    same_infrastructure r1 r2 → buffered_intervals_disjoint r1 r2

/-- The separation invariant the conflict check actually enforces: distinct
bookings on one infrastructure are at least 90 minutes apart. -/
abbrev creneaux_separated (db : DatabaseManager) : Prop :=
  ∀ r1 ∈ db.creneaux, ∀ r2 ∈ db.creneaux, r1.Id ≠ r2.Id →
    same_infrastructure r1 r2 →
    (r1.fin_prevu + 90 ≤ r2.debut_prevu ∨ r2.fin_prevu + 90 ≤ r1.debut_prevu)

/-- Hangar with the rate card used by the worked cost examples of the spec. -/
def exInfra : Infrastructure :=
  { Id := 1, nom := "Hangar A", type := "hangar", capacite_max := 2
    prix_jour := 150, prix_semaine := 900, prix_mois := 3200 }

/-- Refueling record used as a concrete ancillary-service reference. -/
def exAvit : Avitaillement :=
  { Id := 1, date := "2026-01-10", heure := "09:00", quantite_en_l := 80
    cout := 40, avion_id := "F-GABC" }

/-- Existing one-hour booking `[600, 660]` on infrastructure 1. -/
def exBooking : Creneau :=
  { Id := 1, debut_prevu := 600, fin_prevu := 660, debut_reel := none
    fin_reel := none, etat := "Demandé", cout_total := some (25 / 4)
    avitaillement_id := none, pilote_id := some 7
    infrastructure_id := some 1, facture_id := none }

/-- Concrete database state: one infrastructure, one refueling record, one
booking. -/
def exDb : DatabaseManager :=
  { infrastructures := [exInfra], avitaillements := [exAvit]
    creneaux := [exBooking], avions := [], factures := [], messageries := [] }

def exUser : CurrentUser := { id := 7, type := "pilote", username := "p7" }

/-- Booking request starting exactly 90 minutes after `exBooking` ends; the
caller also tries to smuggle in a state and a cost. -/
def c2Req : CreneauCreate :=
  { debut_prevu := 750, fin_prevu := 810, debut_reel := none, fin_reel := none
    etat := "Confirmé", cout_total := some 999, avitaillement_id := none
    pilote_id := none, infrastructure_id := some 1, facture_id := none }

/-- The row `create_creneau exDb exUser c2Req` persists. -/
def c2Row : Creneau :=
  { Id := 2, debut_prevu := 750, fin_prevu := 810, debut_reel := none
    fin_reel := none, etat := "Demandé", cout_total := some (25 / 4)
    avitaillement_id := none, pilote_id := some 7
    infrastructure_id := some 1, facture_id := none }

/-- The state after `create_creneau exDb exUser c2Req`. -/
def c2PostDb : DatabaseManager := { exDb with creneaux := exDb.creneaux ++ [c2Row] }

/-- Second booking on infrastructure 1, far away from `exBooking`. -/
def updB2 : Creneau :=
  { Id := 2, debut_prevu := 2000, fin_prevu := 2060, debut_reel := none
    fin_reel := none, etat := "Demandé", cout_total := some (25 / 4)
    avitaillement_id := none, pilote_id := some 7
    infrastructure_id := some 1, facture_id := none }

/-- State holding two well-separated bookings on infrastructure 1. -/
def updDb : DatabaseManager := { exDb with creneaux := [exBooking, updB2] }

/-- Update request moving booking 2 right on top of booking 1 (state
unchanged, a legal no-op transition). -/
def updReq : CreneauCreate :=
  { debut_prevu := 630, fin_prevu := 690, debut_reel := none, fin_reel := none
    etat := "Demandé", cout_total := none, avitaillement_id := none
    pilote_id := some 7, infrastructure_id := some 1, facture_id := none }

/-- The row `update_creneau updDb 2 updReq` persists. -/
def updRow : Creneau :=
  { Id := 2, debut_prevu := 630, fin_prevu := 690, debut_reel := none
    fin_reel := none, etat := "Demandé", cout_total := some (25 / 4)
    avitaillement_id := none, pilote_id := some 7
    infrastructure_id := some 1, facture_id := none }

/-- The state after `update_creneau updDb 2 updReq`. -/
def updPostDb : DatabaseManager := { exDb with creneaux := [exBooking, updRow] }

/-- Update request that inverts the interval: ends 100 minutes before it
starts, with a legal no-op state transition. -/
def c5Req : CreneauCreate :=
  { debut_prevu := 800, fin_prevu := 700, debut_reel := none, fin_reel := none
    etat := "Demandé", cout_total := none, avitaillement_id := none
    pilote_id := some 7, infrastructure_id := some 1, facture_id := none }

/-- The row `update_creneau exDb 1 c5Req` persists: its planned end precedes
its planned start and its cost is negative. -/
def c5Row : Creneau :=
  { Id := 1, debut_prevu := 800, fin_prevu := 700, debut_reel := none
    fin_reel := none, etat := "Demandé", cout_total := some (-125 / 12)
    avitaillement_id := none, pilote_id := some 7
    infrastructure_id := some 1, facture_id := none }

/-- The state after `update_creneau exDb 1 c5Req`. -/
def c5PostDb : DatabaseManager := { exDb with creneaux := [c5Row] }

/-- Degenerate creation request with `fin_prevu = debut_prevu`. -/
def c6Req : CreneauCreate :=
  { debut_prevu := 100, fin_prevu := 100, debut_reel := none, fin_reel := none
    etat := "Demandé", cout_total := none, avitaillement_id := none
    pilote_id := none, infrastructure_id := some 1, facture_id := none }

/-! Helper lemmas shared by the claim theorems. -/

lemma creneau_id_lt_fresh (db : DatabaseManager) :
    ∀ r ∈ db.creneaux, r.Id < creneaux_fresh_id db := by
  intro r hr
  unfold creneaux_fresh_id
  suffices h : ∀ (l : List Creneau), r ∈ l → r.Id ≤ l.foldr (fun r m => max r.Id m) 0 by
    have := h db.creneaux hr
    omega
  intro l hl
  induction l with
  | nil => cases hl
  | cons a t ih =>
    rcases List.mem_cons.mp hl with h | h
    · simp only [List.foldr_cons]
      exact h ▸ le_max_left _ _
    · exact le_trans (ih h) (le_max_right _ _)

lemma filter_fresh_append (db : DatabaseManager) (row : Creneau)
    (hrow : row.Id = creneaux_fresh_id db) :
    (db.creneaux ++ [row]).filter (fun r => r.Id == creneaux_fresh_id db) = [row] := by
  rw [List.filter_append]
  have h1 : db.creneaux.filter (fun r => r.Id == creneaux_fresh_id db) = [] := by
    refine List.filter_eq_nil_iff.mpr (fun r hr => ?_)
    have := creneau_id_lt_fresh db r hr
    simp only [beq_iff_eq]
    exact ne_of_lt this
  rw [h1]
  simp [hrow]

/-- If the 90-minute check passes, every existing booking selected for the
same infrastructure is at least 90 minutes away from the candidate. -/
lemma validate_true_separates (db : DatabaseManager) (infra : Option Int) (d f : ℚ)
    (h : (validate_creneau_time_slot db infra d f none).1 = true) :
    ∀ r ∈ db.creneaux, filter_match_optInt infra r.infrastructure_id = true →
      r.fin_prevu + 90 ≤ d ∨ f + 90 ≤ r.debut_prevu := by
  intro r hr hm
  unfold validate_creneau_time_slot at h
  by_cases hfd : f ≤ d
  · rw [if_pos hfd] at h
    simp at h
  · rw [if_neg hfd] at h
    rcases hfind : (db.creneaux.filter
        (fun r => filter_match_optInt infra r.infrastructure_id)).find? (fun existing =>
          !(creneau_excluded none existing.Id)
          && decide (d < existing.fin_prevu + 90)
          && decide (f > existing.debut_prevu - 90)) with _ | x
    · rw [List.find?_eq_none] at hfind
      have hrf : r ∈ db.creneaux.filter
          (fun r => filter_match_optInt infra r.infrastructure_id) :=
        List.mem_filter.mpr ⟨hr, hm⟩
      have hp := hfind r hrf
      simp only [creneau_excluded, Bool.not_false, Bool.true_and, Bool.and_eq_true,
        decide_eq_true_eq, not_and, not_lt, gt_iff_lt] at hp
      by_cases h1 : d < r.fin_prevu + 90
      · right
        have := hp h1
        linarith
      · left
        linarith
    · rw [hfind] at h
      simp at h

lemma create_creneau_ok (db : DatabaseManager) (user : CurrentUser) (creneau : CreneauCreate)
    (hval : (validate_creneau_time_slot db creneau.infrastructure_id
      creneau.debut_prevu creneau.fin_prevu none).1 = true) :
    create_creneau db user creneau =
      .ok (mk_new_creneau db user creneau,
           { db with creneaux := db.creneaux ++ [mk_new_creneau db user creneau] }) := by
  unfold create_creneau
  rcases hv : validate_creneau_time_slot db creneau.infrastructure_id
      creneau.debut_prevu creneau.fin_prevu none with ⟨b, msg⟩
  rw [hv] at hval
  cases b
  · simp at hval
  · rw [filter_fresh_append db (mk_new_creneau db user creneau) rfl]

lemma create_creneau_err (db : DatabaseManager) (user : CurrentUser) (creneau : CreneauCreate)
    (hval : (validate_creneau_time_slot db creneau.infrastructure_id
      creneau.debut_prevu creneau.fin_prevu none).1 = false) :
    create_creneau db user creneau =
      .error (409, (validate_creneau_time_slot db creneau.infrastructure_id
        creneau.debut_prevu creneau.fin_prevu none).2) := by
  unfold create_creneau
  rcases hv : validate_creneau_time_slot db creneau.infrastructure_id
      creneau.debut_prevu creneau.fin_prevu none with ⟨b, msg⟩
  rw [hv] at hval
  cases b
  · rfl
  · simp at hval

lemma valid_transitions_mem_iff (c n : String) :
    n ∈ valid_transitions c ↔
      ((c = "Demandé" ∧ (n = "Confirmé" ∨ n = "Annulé"))
       ∨ (c = "Confirmé" ∧ (n = "Autorisé" ∨ n = "Annulé"))
       ∨ (c = "Autorisé" ∧ n = "Achevé")) := by
  unfold valid_transitions
  by_cases h1 : c = "Demandé"
  · simp [h1]
  · by_cases h2 : c = "Confirmé"
    · simp [h1, h2]
    · by_cases h3 : c = "Autorisé"
      · simp [h1, h2, h3]
      · by_cases h4 : c = "Achevé"
        · simp [h1, h2, h3, h4]
        · by_cases h5 : c = "Annulé" <;> simp [h1, h2, h3, h4, h5]

/-- C4: `validate_creneau_state_transition` accepts exactly the no-op pairs
(`proposed == current`, for arbitrary strings) and the table transitions
Demandé→{Confirmé, Annulé}, Confirmé→{Autorisé, Annulé}, Autorisé→{Achevé};
every other pair fails with a message carrying both states. -/
theorem c4_state_transitions (c n : String) :
    validate_creneau_state_transition c n =
      if n = c ∨ (c = "Demandé" ∧ (n = "Confirmé" ∨ n = "Annulé"))
         ∨ (c = "Confirmé" ∧ (n = "Autorisé" ∨ n = "Annulé"))
         ∨ (c = "Autorisé" ∧ n = "Achevé")
      then (true, none)
      else (false, some ("Invalid state transition from " ++ c ++ " to " ++ n)) := by
  unfold validate_creneau_state_transition
  by_cases h1 : n = c
  · rw [if_pos h1, if_pos (Or.inl h1)]
  · rw [if_neg h1]
    by_cases h2 : n ∈ valid_transitions c
    · rw [if_neg (by simpa using h2), if_pos (Or.inr ((valid_transitions_mem_iff c n).mp h2))]
    · rw [if_pos h2, if_neg ?_]
      rintro (h | h)
      · exact h1 h
      · exact h2 ((valid_transitions_mem_iff c n).mpr h)

lemma validate_bad_interval (db : DatabaseManager) (infra exclude : Option Int)
    (d f : ℚ) (h : f ≤ d) :
    validate_creneau_time_slot db infra d f exclude =
      (false, some "End time must be after start time") := by
  unfold validate_creneau_time_slot
  rw [if_pos h]

/-- C6: for any infrastructure, any exclusion and any `end ≤ start`,
`validate_creneau_time_slot` fails with the interval error before looking at
any booking, and `create_creneau` on such a request always fails. -/
theorem c6_reject_bad_interval (db : DatabaseManager) (infra exclude : Option Int)
    (d f : ℚ) (user : CurrentUser) (req : CreneauCreate)
    (h : f ≤ d) (hreq : req.fin_prevu ≤ req.debut_prevu) :
    validate_creneau_time_slot db infra d f exclude =
      (false, some "End time must be after start time")
    ∧ create_creneau db user req =
        .error (409, some "End time must be after start time") := by
  refine ⟨validate_bad_interval db infra exclude d f h, ?_⟩
  have hv := validate_bad_interval db req.infrastructure_id none
    req.debut_prevu req.fin_prevu hreq
  have := create_creneau_err db user req (by rw [hv])
  rw [this, hv]

theorem c6_reject_bad_interval_witness :
    (100 : ℚ) ≤ 100 ∧ c6Req.fin_prevu ≤ c6Req.debut_prevu ∧
    (validate_creneau_time_slot exDb (some 1) 100 100 none =
      (false, some "End time must be after start time")
    ∧ create_creneau exDb exUser c6Req =
        .error (409, some "End time must be after start time")) :=
  ⟨le_refl 100, le_refl _,
    c6_reject_bad_interval exDb (some 1) none 100 100 exUser c6Req (le_refl 100) (le_refl _)⟩

/-- C7: `calculate_creneau_cost` total-function behavior on missing
references: an absent `infrastructure_id` and a dangling `infrastructure_id`
or `avitaillement_id` each contribute 0 to the total, and no error is
possible (the function is total into `ℚ`). -/
theorem c7_missing_refs_zero (db : DatabaseManager) (i a : Int) (d f : ℚ)
    (hi : db.infrastructures.filter (fun r => r.Id == i) = [])
    (ha : db.avitaillements.filter (fun r => r.Id == a) = []) :
    calculate_creneau_cost db (some i) (some a) d f = 0
    ∧ calculate_creneau_cost db none (some a) d f = 0
    ∧ calculate_creneau_cost db none none d f = 0
    ∧ (∀ oa : Option Int,
        calculate_creneau_cost db (some i) oa d f = calculate_creneau_cost db none oa d f)
    ∧ (∀ oi : Option Int,
        calculate_creneau_cost db oi (some a) d f = calculate_creneau_cost db oi none d f) := by
  refine ⟨?_, ?_, ?_, fun oa => ?_, fun oi => ?_⟩
  · by_cases h0 : i = 0 <;> by_cases h1 : a = 0 <;>
      simp [calculate_creneau_cost, hi, ha, h0, h1]
  · by_cases h1 : a = 0 <;> simp [calculate_creneau_cost, ha, h1]
  · simp [calculate_creneau_cost]
  · by_cases h0 : i = 0 <;> simp [calculate_creneau_cost, hi, h0]
  · by_cases h1 : a = 0 <;> simp [calculate_creneau_cost, ha, h1]

theorem c7_missing_refs_zero_witness :
    exDb.infrastructures.filter (fun r => r.Id == 99) = []
    ∧ exDb.avitaillements.filter (fun r => r.Id == 99) = []
    ∧ calculate_creneau_cost exDb (some 99) (some 99) 3 5 = 0 :=
  ⟨by simp [exDb, exInfra, show ((1:Int) == 99) = false from by decide],
   by simp [exDb, exAvit, show ((1:Int) == 99) = false from by decide],
   (c7_missing_refs_zero exDb 99 99 3 5
     (by simp [exDb, exInfra, show ((1:Int) == 99) = false from by decide])
     (by simp [exDb, exAvit, show ((1:Int) == 99) = false from by decide])).1⟩

/-- C8: a read of an `Avion`, `Creneau`, `Facture` or `Messagerie` whose
target does not exist fails with 404 Not Found for every caller identity: the
existence check precedes the authorization check in all four handlers. -/
theorem c8_not_found_before_auth (db : DatabaseManager) (user : CurrentUser)
    (imm : String) (cid fid mid : Int) :
    (db.avions.filter (fun a => a.Immatriculation == imm) = [] →
      get_avion db imm user = .error (404, some "Avion not found"))
    ∧ (db.creneaux.filter (fun c => c.Id == cid) = [] →
      get_creneau db cid user = .error (404, some "Creneau not found"))
    ∧ (db.factures.filter (fun fa => fa.Id == fid) = [] →
      get_facture db fid user = .error (404, some "Facture not found"))
    ∧ (db.messageries.filter (fun m => m.Id == mid) = [] →
      get_messagerie db mid user = .error (404, some "Message not found")) := by
  refine ⟨fun h => ?_, fun h => ?_, fun h => ?_, fun h => ?_⟩
  · unfold get_avion
    rw [h]
  · unfold get_creneau
    rw [h]
  · unfold get_facture
    rw [h]
  · unfold get_messagerie
    rw [h]

theorem c8_not_found_before_auth_witness :
    exDb.avions.filter (fun a => a.Immatriculation == "F-NONE") = []
    ∧ exDb.creneaux.filter (fun c => c.Id == 99) = []
    ∧ get_avion exDb "F-NONE" exUser = .error (404, some "Avion not found")
    ∧ get_creneau exDb 99 exUser = .error (404, some "Creneau not found")
    ∧ get_facture exDb 99 exUser = .error (404, some "Facture not found")
    ∧ get_messagerie exDb 99 exUser = .error (404, some "Message not found") := by
  have hc : exDb.creneaux.filter (fun c => c.Id == 99) = [] := by
    simp [exDb, exBooking, show ((1:Int) == 99) = false from by decide]
  have h := c8_not_found_before_auth exDb exUser "F-NONE" 99 99 99
  exact ⟨rfl, hc, h.1 rfl, h.2.1 hc, h.2.2.1 rfl, h.2.2.2 rfl⟩

/-- C9: whatever `etat` or `cout_total` the caller supplies, a successful
`create_creneau` persists the new row in state `"Demandé"` with `cout_total`
recomputed by `calculate_creneau_cost` on the references and
interval, appended to the `Creneaux` table. -/
theorem c9_create_overrides (db : DatabaseManager) (user : CurrentUser)
    (req : CreneauCreate) (row : Creneau) (db2 : DatabaseManager)
    (h : create_creneau db user req = .ok (row, db2)) :
    row.etat = "Demandé"
    ∧ row.cout_total = some (calculate_creneau_cost db req.infrastructure_id
        req.avitaillement_id req.debut_prevu req.fin_prevu)
    ∧ db2.creneaux = db.creneaux ++ [row] := by
  by_cases hval : (validate_creneau_time_slot db req.infrastructure_id
      req.debut_prevu req.fin_prevu none).1 = true
  · rw [create_creneau_ok db user req hval] at h
    simp only [Except.ok.injEq, Prod.mk.injEq] at h
    obtain ⟨hrow, hdb⟩ := h
    subst hdb
    subst hrow
    exact ⟨rfl, rfl, rfl⟩
  · rw [Bool.not_eq_true] at hval
    rw [create_creneau_err db user req hval] at h
    exact absurd h (by simp)

theorem c9_create_overrides_witness :
    create_creneau exDb exUser c2Req = .ok (c2Row, c2PostDb)
    ∧ (c2Row.etat = "Demandé"
       ∧ c2Row.cout_total = some (calculate_creneau_cost exDb c2Req.infrastructure_id
           c2Req.avitaillement_id c2Req.debut_prevu c2Req.fin_prevu)
       ∧ c2PostDb.creneaux = exDb.creneaux ++ [c2Row]) := by
  have h : create_creneau exDb exUser c2Req = .ok (c2Row, c2PostDb) := by
    norm_num [create_creneau, mk_new_creneau, validate_creneau_time_slot,
      calculate_creneau_cost, creneaux_fresh_id, exDb, exBooking, exUser, exInfra,
      c2Req, c2Row, c2PostDb, creneau_excluded, filter_match_optInt,
      List.filter, List.find?, List.foldr,
      show ((1:Int) == 2) = false from by decide, show ((2:Int) == 2) = true from by decide]
  exact ⟨h, c9_create_overrides exDb exUser c2Req c2Row c2PostDb h⟩

/-- C1: with a well-formed interval, the 90-minute check rejects exactly when
some non-excluded booking of the same infrastructure satisfies the strict
conflict inequalities; on a single booking ending at 660, a candidate
starting at 750 (= end + 90) is accepted while 749 is rejected. -/
theorem c1_conflict_rule (db : DatabaseManager) (iid : Int) (debut fin : ℚ)
    (exclude : Option Int) (hse : debut < fin)
    (hex : ∀ e, exclude = some e → e ≠ 0) :
    ((validate_creneau_time_slot db (some iid) debut fin exclude).1 = false ↔
      ∃ r, r ∈ db.creneaux ∧ r.infrastructure_id = some iid ∧ exclude ≠ some r.Id ∧
        debut < r.fin_prevu + 90 ∧ fin > r.debut_prevu - 90)
    ∧ (validate_creneau_time_slot exDb (some 1) 750 810 none).1 = true
    ∧ (validate_creneau_time_slot exDb (some 1) 749 810 none).1 = false := by
  refine ⟨?_,
    by norm_num [validate_creneau_time_slot, exDb, exBooking, creneau_excluded,
      filter_match_optInt, List.filter, List.find?],
    by norm_num [validate_creneau_time_slot, exDb, exBooking, creneau_excluded,
      filter_match_optInt, List.filter, List.find?]⟩
  have hmatch : ∀ r : Creneau,
      (filter_match_optInt (some iid) r.infrastructure_id = true ↔
        r.infrastructure_id = some iid) := by
    intro r
    cases hri : r.infrastructure_id with
    | none => simp [filter_match_optInt]
    | some w =>
      by_cases hw : iid = w
      · subst hw
        simp [filter_match_optInt]
      · simp [filter_match_optInt, hw, Ne.symm hw]
  have hexcl : ∀ r : Creneau,
      ((!(creneau_excluded exclude r.Id)) = true ↔ exclude ≠ some r.Id) := by
    intro r
    cases hx : exclude with
    | none => simp [creneau_excluded]
    | some e =>
      have he : e ≠ 0 := hex e hx
      by_cases hre : r.Id = e
      · subst hre
        simp [creneau_excluded, he]
      · simp [creneau_excluded, he, hre, Ne.symm hre]
  unfold validate_creneau_time_slot
  rw [if_neg (not_le.mpr hse)]
  cases hfind : (db.creneaux.filter
      (fun r => filter_match_optInt (some iid) r.infrastructure_id)).find?
      (fun existing =>
        !(creneau_excluded exclude existing.Id)
        && decide (debut < existing.fin_prevu + 90)
        && decide (fin > existing.debut_prevu - 90)) with
  | none =>
    rw [List.find?_eq_none] at hfind
    constructor
    · intro hcontra
      exact absurd hcontra (by simp)
    · rintro ⟨r, hr, hinf, hexc, h1, h2⟩
      exfalso
      apply hfind r (List.mem_filter.mpr ⟨hr, (hmatch r).mpr hinf⟩)
      simp only [Bool.and_eq_true, decide_eq_true_eq]
      exact ⟨⟨(hexcl r).mpr hexc, h1⟩, h2⟩
  | some x =>
    have px := List.find?_some hfind
    have hmem := List.mem_of_find?_eq_some hfind
    constructor
    · intro _
      obtain ⟨hxmem, hxmatch⟩ := List.mem_filter.mp hmem
      simp only [Bool.and_eq_true, decide_eq_true_eq] at px
      exact ⟨x, hxmem, (hmatch x).mp hxmatch, (hexcl x).mp px.1.1, px.1.2, px.2⟩
    · intro _
      rfl

theorem c1_conflict_rule_witness :
    (700 : ℚ) < 810
    ∧ (((validate_creneau_time_slot exDb (some 1) 700 810 none).1 = false ↔
        ∃ r, r ∈ exDb.creneaux ∧ r.infrastructure_id = some 1 ∧ (none : Option Int) ≠ some r.Id ∧
          700 < r.fin_prevu + 90 ∧ (810 : ℚ) > r.debut_prevu - 90)
      ∧ (validate_creneau_time_slot exDb (some 1) 750 810 none).1 = true
      ∧ (validate_creneau_time_slot exDb (some 1) 749 810 none).1 = false) :=
  ⟨by norm_num,
   c1_conflict_rule exDb 1 700 810 none (by norm_num) (fun e h => nomatch h)⟩

/-- C3: the tiered cost formula on fractional days plus the additive
ancillary cost, with the three worked spec examples on the rate card
(150, 900, 3200). -/
theorem c3_cost_formula :
    (∀ (db : DatabaseManager) (i : Int) (infra : Infrastructure)
       (rest : List Infrastructure) (d f : ℚ),
      i ≠ 0 → db.infrastructures.filter (fun r => r.Id == i) = infra :: rest →
      (calculate_creneau_cost db (some i) none d f =
        (if 30 ≤ (f - d) / 1440 then ((f - d) / 1440 / 30) * infra.prix_mois
         else if 7 ≤ (f - d) / 1440 then ((f - d) / 1440 / 7) * infra.prix_semaine
         else ((f - d) / 1440) * infra.prix_jour))
      ∧ ∀ (a : Int) (av : Avitaillement) (arest : List Avitaillement), a ≠ 0 →
          db.avitaillements.filter (fun r => r.Id == a) = av :: arest →
          calculate_creneau_cost db (some i) (some a) d f =
            calculate_creneau_cost db (some i) none d f + av.cout)
    ∧ calculate_creneau_cost exDb (some 1) none 0 60 = 25 / 4
    ∧ calculate_creneau_cost exDb (some 1) none 0 14400 = 10 / 7 * 900
    ∧ calculate_creneau_cost exDb (some 1) none 0 57600 = 40 / 30 * 3200 := by
  have hdays : ∀ d f : ℚ, ((f - d) * 60) / 3600 / 24 = (f - d) / 1440 := by
    intro d f
    ring
  refine ⟨fun db i infra rest d f hi hf => ⟨?_, fun a av arest ha haf => ?_⟩,
    by norm_num [calculate_creneau_cost, exDb, exInfra, List.filter],
    by norm_num [calculate_creneau_cost, exDb, exInfra, List.filter],
    by norm_num [calculate_creneau_cost, exDb, exInfra, List.filter]⟩
  · simp only [calculate_creneau_cost, hf, if_neg hi, hdays, add_zero]
  · simp only [calculate_creneau_cost, hf, haf, if_neg hi, if_neg ha, hdays, add_zero]

theorem c3_cost_formula_witness :
    (1 : Int) ≠ 0
    ∧ exDb.infrastructures.filter (fun r => r.Id == 1) = exInfra :: []
    ∧ (calculate_creneau_cost exDb (some 1) none 0 60 =
        (if 30 ≤ ((60 : ℚ) - 0) / 1440 then (((60 : ℚ) - 0) / 1440 / 30) * exInfra.prix_mois
         else if 7 ≤ ((60 : ℚ) - 0) / 1440 then (((60 : ℚ) - 0) / 1440 / 7) * exInfra.prix_semaine
         else (((60 : ℚ) - 0) / 1440) * exInfra.prix_jour))
    ∧ calculate_creneau_cost exDb (some 1) (some 1) 0 60 =
        calculate_creneau_cost exDb (some 1) none 0 60 + exAvit.cout := by
  have hf : exDb.infrastructures.filter (fun r => r.Id == 1) = exInfra :: [] := by
    simp [exDb, exInfra, show ((1:Int) == 1) = true from by decide]
  have ha : exDb.avitaillements.filter (fun r => r.Id == 1) = exAvit :: [] := by
    simp [exDb, exAvit, show ((1:Int) == 1) = true from by decide]
  have h := c3_cost_formula.1 exDb 1 exInfra [] 0 60 (by norm_num) hf
  exact ⟨by norm_num, hf, h.1, h.2 1 exAvit [] (by norm_num) ha⟩

lemma apply_creneau_update_id (u : CreneauCreate) (cout : ℚ) (r : Creneau) :
    (apply_creneau_update u cout r).Id = r.Id := rfl

lemma updated_creneaux_filter (db : DatabaseManager) (cid : Int) (req : CreneauCreate) :
    (updated_creneaux db cid req).filter (fun r => r.Id == cid) =
      (db.creneaux.filter (fun r => r.Id == cid)).map
        (fun r => apply_creneau_update req
          (calculate_creneau_cost db req.infrastructure_id req.avitaillement_id
            req.debut_prevu req.fin_prevu) r) := by
  unfold updated_creneaux
  rw [List.filter_map]
  have hcomp : ((fun r : Creneau => r.Id == cid) ∘
      (fun r => if r.Id == cid then
        apply_creneau_update req
          (calculate_creneau_cost db req.infrastructure_id req.avitaillement_id
            req.debut_prevu req.fin_prevu) r
      else r)) = (fun r : Creneau => r.Id == cid) := by
    funext r
    by_cases h : (r.Id == cid) = true
    · simp [Function.comp, h, apply_creneau_update_id]
    · simp [Function.comp, h]
  rw [hcomp]
  have hmap : ∀ l : List Creneau, (∀ r ∈ l, (r.Id == cid) = true) →
      l.map (fun r => if r.Id == cid then
        apply_creneau_update req
          (calculate_creneau_cost db req.infrastructure_id req.avitaillement_id
            req.debut_prevu req.fin_prevu) r
      else r) =
      l.map (fun r => apply_creneau_update req
        (calculate_creneau_cost db req.infrastructure_id req.avitaillement_id
          req.debut_prevu req.fin_prevu) r) := by
    intro l hl
    induction l with
    | nil => rfl
    | cons x t ih =>
      simp only [List.map_cons, hl x (List.mem_cons_self x t), if_pos,
        ih (fun r hr => hl r (List.mem_cons_of_mem x hr))]
  exact hmap _ (fun r hr => (List.mem_filter.mp hr).2)

lemma update_creneau_ok (db : DatabaseManager) (cid : Int) (req : CreneauCreate)
    (existing : Creneau) (rest : List Creneau)
    (hf : db.creneaux.filter (fun r => r.Id == cid) = existing :: rest)
    (ht : (validate_creneau_state_transition existing.etat req.etat).1 = true) :
    update_creneau db cid req =
      .ok (apply_creneau_update req
            (calculate_creneau_cost db req.infrastructure_id req.avitaillement_id
              req.debut_prevu req.fin_prevu) existing,
           { db with creneaux := updated_creneaux db cid req }) := by
  unfold update_creneau
  rw [hf]
  show (match validate_creneau_state_transition existing.etat req.etat with
    | (false, error_msg) => Except.error (400, error_msg)
    | (true, _) =>
      match (updated_creneaux db cid req).filter (fun r : Creneau => r.Id == cid) with
      | [] => Except.error (404, some "Creneau not found")
      | updated :: _ =>
        Except.ok (updated, { db with creneaux := updated_creneaux db cid req })) = _
  rcases hv : validate_creneau_state_transition existing.etat req.etat with ⟨b, msg⟩
  rw [hv] at ht
  cases b
  · simp at ht
  · rw [updated_creneaux_filter db cid req, hf]
    rfl

/-- C10: with a real daily rate and an inverted interval the cost formula
returns a strictly negative total, and `update_creneau` — which performs no
interval validation — persists whatever `calculate_creneau_cost` returns on
the interval of the request whenever the row exists and the state transition is
legal. -/
theorem c10_negative_cost :
    (∀ (db : DatabaseManager) (i : Int) (infra : Infrastructure)
       (rest : List Infrastructure) (d f : ℚ),
      i ≠ 0 → db.infrastructures.filter (fun r => r.Id == i) = infra :: rest →
      0 < infra.prix_jour → f < d →
      calculate_creneau_cost db (some i) none d f < 0)
    ∧ (∀ (db : DatabaseManager) (cid : Int) (req : CreneauCreate)
         (existing : Creneau) (rest : List Creneau),
        db.creneaux.filter (fun r => r.Id == cid) = existing :: rest →
        (validate_creneau_state_transition existing.etat req.etat).1 = true →
        ∃ row db2, update_creneau db cid req = .ok (row, db2)
          ∧ row.debut_prevu = req.debut_prevu ∧ row.fin_prevu = req.fin_prevu
          ∧ row.cout_total = some (calculate_creneau_cost db req.infrastructure_id
              req.avitaillement_id req.debut_prevu req.fin_prevu)) := by
  constructor
  · intro db i infra rest d f hi hf hpj hfd
    have hdneg : ((f - d) * 60) / 3600 / 24 < 0 := by
      have h1 : f - d < 0 := by linarith
      have h2 : (f - d) * 60 < 0 := mul_neg_of_neg_of_pos h1 (by norm_num)
      have h3 : ((f - d) * 60) / 3600 < 0 := div_neg_of_neg_of_pos h2 (by norm_num)
      exact div_neg_of_neg_of_pos h3 (by norm_num)
    simp only [calculate_creneau_cost, hf, if_neg hi, add_zero]
    rw [if_neg (not_le.mpr (lt_of_lt_of_le hdneg (by norm_num)))]
    rw [if_neg (not_le.mpr (lt_of_lt_of_le hdneg (by norm_num)))]
    exact mul_neg_of_neg_of_pos hdneg hpj
  · intro db cid req existing rest hf ht
    refine ⟨apply_creneau_update req
        (calculate_creneau_cost db req.infrastructure_id req.avitaillement_id
          req.debut_prevu req.fin_prevu) existing,
      { db with creneaux := updated_creneaux db cid req },
      update_creneau_ok db cid req existing rest hf ht, rfl, rfl, rfl⟩

theorem c10_negative_cost_witness :
    exDb.infrastructures.filter (fun r => r.Id == 1) = exInfra :: []
    ∧ calculate_creneau_cost exDb (some 1) none 800 700 < 0
    ∧ exDb.creneaux.filter (fun r => r.Id == 1) = exBooking :: []
    ∧ (validate_creneau_state_transition exBooking.etat c5Req.etat).1 = true
    ∧ ∃ row db2, update_creneau exDb 1 c5Req = .ok (row, db2)
        ∧ row.debut_prevu = c5Req.debut_prevu ∧ row.fin_prevu = c5Req.fin_prevu
        ∧ row.cout_total = some (calculate_creneau_cost exDb c5Req.infrastructure_id
            c5Req.avitaillement_id c5Req.debut_prevu c5Req.fin_prevu) := by
  have hf : exDb.infrastructures.filter (fun r => r.Id == 1) = exInfra :: [] := by
    simp [exDb, exInfra, show ((1:Int) == 1) = true from by decide]
  have hc : exDb.creneaux.filter (fun r => r.Id == 1) = exBooking :: [] := by
    simp [exDb, exBooking, show ((1:Int) == 1) = true from by decide]
  have ht : (validate_creneau_state_transition exBooking.etat c5Req.etat).1 = true := by
    simp [validate_creneau_state_transition, exBooking, c5Req]
  exact ⟨hf,
    c10_negative_cost.1 exDb 1 exInfra [] 800 700 (by norm_num) hf (by norm_num [exInfra])
      (by norm_num),
    hc, ht, c10_negative_cost.2 exDb 1 c5Req exBooking [] hc ht⟩

/-- C2 counterexample: from a reachable one-booking state satisfying the
claimed both-sides-buffered disjointness invariant, `create_creneau` accepts
a candidate starting exactly 90 minutes later — the boundary
example — and the resulting pair of rows violates that invariant. -/
theorem c2_buffered_invariant_cex :
    claim_buffered_invariant exDb
    ∧ create_creneau exDb exUser c2Req = .ok (c2Row, c2PostDb)
    ∧ ¬ claim_buffered_invariant c2PostDb := by
  refine ⟨?_, ?_, ?_⟩
  · intro r1 h1 r2 h2 hne hsame
    simp [exDb] at h1 h2
    subst h1
    subst h2
    exact absurd rfl hne
  · norm_num [create_creneau, mk_new_creneau, validate_creneau_time_slot,
      calculate_creneau_cost, creneaux_fresh_id, exDb, exBooking, exUser, exInfra,
      c2Req, c2Row, c2PostDb, creneau_excluded, filter_match_optInt,
      List.filter, List.find?, List.foldr,
      show ((1:Int) == 2) = false from by decide, show ((2:Int) == 2) = true from by decide]
  · intro h
    have := h exBooking (by simp [c2PostDb, exDb]) c2Row (by simp [c2PostDb, exDb])
      (by norm_num [exBooking, c2Row]) (by simp [exBooking, c2Row, same_infrastructure])
    norm_num [exBooking, c2Row, buffered_intervals_disjoint] at this

/-- C2 amended: a successful `create_creneau` preserves the invariant the
code actually enforces — any two distinct rows on one infrastructure are at
least 90 minutes apart — while `update_creneau`, which never re-runs the
conflict check, does not preserve it. -/
theorem c2_separation_amended :
    (∀ (db : DatabaseManager) (user : CurrentUser) (req : CreneauCreate)
       (row : Creneau) (db2 : DatabaseManager),
      creneaux_separated db → create_creneau db user req = .ok (row, db2) →
      creneaux_separated db2)
    ∧ creneaux_separated updDb
    ∧ update_creneau updDb 2 updReq = .ok (updRow, updPostDb)
    ∧ ¬ creneaux_separated updPostDb := by
  refine ⟨?_, ?_, ?_, ?_⟩
  · intro db user req row db2 hsep hok
    by_cases hval : (validate_creneau_time_slot db req.infrastructure_id
        req.debut_prevu req.fin_prevu none).1 = true
    swap
    · rw [Bool.not_eq_true] at hval
      rw [create_creneau_err db user req hval] at hok
      exact absurd hok (by simp)
    rw [create_creneau_ok db user req hval] at hok
    simp only [Except.ok.injEq, Prod.mk.injEq] at hok
    obtain ⟨hrow, hdb⟩ := hok
    subst hdb
    have hsep90 := validate_true_separates db req.infrastructure_id
      req.debut_prevu req.fin_prevu hval
    have key : ∀ r ∈ db.creneaux, same_infrastructure (mk_new_creneau db user req) r →
        r.fin_prevu + 90 ≤ req.debut_prevu ∨ req.fin_prevu + 90 ≤ r.debut_prevu := by
      intro r hr hsm
      obtain ⟨hs1, hs2⟩ := hsm
      rcases ho : req.infrastructure_id with _ | v
      · rw [show (mk_new_creneau db user req).infrastructure_id =
            req.infrastructure_id from rfl, ho] at hs1
        simp at hs1
      · apply hsep90 r hr
        rw [show (mk_new_creneau db user req).infrastructure_id =
            req.infrastructure_id from rfl, ho] at hs2
        rw [ho, ← hs2]
        simp [filter_match_optInt]
    intro r1 h1 r2 h2 hne hsame
    have hmm : ∀ r ∈ (db.creneaux ++ [mk_new_creneau db user req]),
        r ∈ db.creneaux ∨ r = mk_new_creneau db user req := by
      intro r hr
      rcases List.mem_append.mp hr with h | h
      · exact Or.inl h
      · exact Or.inr (List.mem_singleton.mp h)
    rcases hmm r1 h1 with hr1 | hr1 <;> rcases hmm r2 h2 with hr2 | hr2
    · exact hsep r1 hr1 r2 hr2 hne hsame
    · subst hr2
      have hflip : same_infrastructure (mk_new_creneau db user req) r1 :=
        ⟨hsame.2 ▸ hsame.1, hsame.2.symm⟩
      rcases key r1 hr1 hflip with h | h
      · exact Or.inl h
      · exact Or.inr h
    · subst hr1
      rcases key r2 hr2 hsame with h | h
      · exact Or.inr h
      · exact Or.inl h
    · subst hr1
      subst hr2
      exact absurd rfl hne
  · intro r1 h1 r2 h2 hne hsame
    simp [updDb, exDb] at h1 h2
    rcases h1 with h1 | h1 <;> rcases h2 with h2 | h2 <;> subst h1 <;> subst h2
    · exact absurd rfl hne
    · left
      norm_num [exBooking, updB2]
    · right
      norm_num [exBooking, updB2]
    · exact absurd rfl hne
  · norm_num [update_creneau, updated_creneaux, validate_creneau_state_transition,
      valid_transitions, calculate_creneau_cost, apply_creneau_update,
      updDb, updReq, updRow, updPostDb, exDb, exBooking, updB2, exInfra,
      List.filter, List.map,
      show ((1:Int) == 2) = false from by decide, show ((2:Int) == 2) = true from by decide,
      show ((1:Int) == 1) = true from by decide]
  · intro h
    have := h exBooking (by simp [updPostDb, exDb]) updRow (by simp [updPostDb, exDb])
      (by norm_num [exBooking, updRow]) (by simp [exBooking, updRow, same_infrastructure])
    norm_num [exBooking, updRow] at this

theorem c2_separation_amended_witness :
    creneaux_separated exDb ∧ creneaux_separated c2PostDb := by
  have hsep : creneaux_separated exDb := by
    intro r1 h1 r2 h2 hne hsame
    simp [exDb] at h1 h2
    subst h1
    subst h2
    exact absurd rfl hne
  have hok : create_creneau exDb exUser c2Req = .ok (c2Row, c2PostDb) := by
    norm_num [create_creneau, mk_new_creneau, validate_creneau_time_slot,
      calculate_creneau_cost, creneaux_fresh_id, exDb, exBooking, exUser, exInfra,
      c2Req, c2Row, c2PostDb, creneau_excluded, filter_match_optInt,
      List.filter, List.find?, List.foldr,
      show ((1:Int) == 2) = false from by decide, show ((2:Int) == 2) = true from by decide]
  exact ⟨hsep, c2_separation_amended.1 exDb exUser c2Req c2Row c2PostDb hsep hok⟩

/-- C5 is a code bug: `update_creneau` never re-validates the interval, so an
agent update carrying `fin_prevu < debut_prevu` (with a legal no-op state
transition) is persisted, breaking the `fin_prevu > debut_prevu` invariant
that creation enforces. -/
theorem c5_update_breaks_interval :
    exBooking.debut_prevu < exBooking.fin_prevu
    ∧ update_creneau exDb 1 c5Req = .ok (c5Row, c5PostDb)
    ∧ c5Row.fin_prevu < c5Row.debut_prevu := by
  refine ⟨by norm_num [exBooking], ?_, by norm_num [c5Row]⟩
  norm_num [update_creneau, updated_creneaux, validate_creneau_state_transition,
    valid_transitions, calculate_creneau_cost, apply_creneau_update,
    c5Req, c5Row, c5PostDb, exDb, exBooking, exInfra, List.filter, List.map,
    show ((1:Int) == 1) = true from by decide]
